import Mathlib

/-!
Shallow embedding of the control/style abstraction layer of the
`leptos_form_tool` repository, covering the parts of the code exercised by
the verified properties: the Date control configuration and its fluent
builder (`src/controls/date.rs`) and the Flowbite style implementation
(`src/styles/flowbite.rs`).

Reactive signals are modelled as opaque handles (`Nat` identifiers) read
through an explicit environment; views are modelled as a tree of elements,
text nodes and fragments, with attribute values resolved at render time
(matching the fact that a render pass reads the current signal values).
-/

namespace LeptosFormTool

/-- Modelled from the spec (§3 Validation State) and its uses in
`src/styles/flowbite.rs`: the tri-state validation outcome attached to a
bound control; the defining module is not under `src/`. -/
inductive ValidationState where
  | Valid : ValidationState
  | Pending : ValidationState
  | Invalid : String → ValidationState
deriving DecidableEq, Repr

/-- Modelled from the spec: `is_err` is true exactly on `Invalid`
(the styles use it to toggle error presentation). -/
def ValidationState.is_err : ValidationState → Bool
  | .Invalid _ => true
  | _ => false

/-- Modelled from the spec: `take_msg` extracts the `Invalid` message
(the styles only call it under an `is_err` guard). -/
def ValidationState.take_msg : ValidationState → String
  | .Invalid m => m
  | _ => ""

/-- Modelled from the spec (§3 Update Policy) and the `UpdateEvent` match
in `FbFormStyle::text_input` (`src/styles/flowbite.rs`); the defining
module is not under `src/`. -/
inductive UpdateEvent where
  | OnFocusout : UpdateEvent
  | OnInput : UpdateEvent
  | OnChange : UpdateEvent
deriving DecidableEq, Repr

/-- The DOM events the Flowbite style attaches setter handlers to. -/
inductive Event where
  | input : Event
  | change : Event
  | focusout : Event
  | click : Event
deriving DecidableEq, Repr

/-- The DOM event named by an update policy. -/
def UpdateEvent.event : UpdateEvent → Event
  | .OnFocusout => .focusout
  | .OnInput => .input
  | .OnChange => .change

/-- `leptos::MaybeSignal`: a field value that is either a static constant
or a reactive signal, modelled with opaque signal handles. -/
inductive MaybeSignal (α : Type) where
  | Static : α → MaybeSignal α
  | Dynamic : Nat → MaybeSignal α
deriving DecidableEq, Repr

/-- Read a `MaybeSignal` given the current signal environment. -/
def MaybeSignal.resolve (env : Nat → α) : MaybeSignal α → α
  | .Static v => v
  | .Dynamic s => env s

/-- `FbStyleAttr` (`src/styles/flowbite.rs`): styling attributes of the
Flowbite style. `Width` is out of 12 and defaults to 12/12. -/
inductive FbStyleAttr where
  | Width : Nat → FbStyleAttr
  | Tooltip : String → FbStyleAttr
deriving DecidableEq, Repr

/-- `DateData` (`src/controls/date.rs`): the configuration record of the
date control. Note: it carries no update-policy field. -/
structure DateData where
  name : String
  label : Option String
  show_buttons : Option (MaybeSignal Bool)
  show_today : Option (MaybeSignal Bool)
  title : Option String
  format : Option String
  min : Option (MaybeSignal String)
  max : Option (MaybeSignal String)
deriving DecidableEq, Repr

/-- The `#[derive(Default)]` instance of `DateData`: empty name, every
optional field absent. -/
def DateData.default : DateData :=
  { name := ""
    label := none
    show_buttons := none
    show_today := none
    title := none
    format := none
    min := none
    max := none }

/-- `ControlBuilder` specialised to a configuration record: the fluent
accumulator threaded by value through the chained setter calls. -/
structure ControlBuilder (D : Type) where
  data : D
deriving DecidableEq, Repr

/-- `ControlBuilder::named` (`src/controls/date.rs`). -/
def ControlBuilder.named (b : ControlBuilder DateData) (control_name : String) :
    ControlBuilder DateData :=
  { b with data := { b.data with name := control_name } }

/-- `ControlBuilder::labeled` (`src/controls/date.rs`). -/
def ControlBuilder.labeled (b : ControlBuilder DateData) (label : String) :
    ControlBuilder DateData :=
  { b with data := { b.data with label := some label } }

/-- `ControlBuilder::title` (`src/controls/date.rs`). -/
def ControlBuilder.title (b : ControlBuilder DateData) (t : String) :
    ControlBuilder DateData :=
  { b with data := { b.data with title := some t } }

/-- `ControlBuilder::show_today` (`src/controls/date.rs`): sets both
`show_today` and `show_buttons` to the same static value. -/
def ControlBuilder.show_today (b : ControlBuilder DateData) (today : Bool) :
    ControlBuilder DateData :=
  { b with data := { b.data with
      show_today := some (MaybeSignal.Static today)
      show_buttons := some (MaybeSignal.Static today) } }

/-- `ControlBuilder::show_buttons` (`src/controls/date.rs`). -/
def ControlBuilder.show_buttons (b : ControlBuilder DateData) (sb : Bool) :
    ControlBuilder DateData :=
  { b with data := { b.data with show_buttons := some (MaybeSignal.Static sb) } }

/-- `ControlBuilder::format` (`src/controls/date.rs`). -/
def ControlBuilder.format (b : ControlBuilder DateData) (f : String) :
    ControlBuilder DateData :=
  { b with data := { b.data with format := some f } }

/-- `ControlBuilder::min` (`src/controls/date.rs`): static minimum. -/
def ControlBuilder.min (b : ControlBuilder DateData) (m : String) :
    ControlBuilder DateData :=
  { b with data := { b.data with min := some (MaybeSignal.Static m) } }

/-- `ControlBuilder::min_signal` (`src/controls/date.rs`): reactive minimum,
written into the same `min` field. -/
def ControlBuilder.min_signal (b : ControlBuilder DateData) (s : Nat) :
    ControlBuilder DateData :=
  { b with data := { b.data with min := some (MaybeSignal.Dynamic s) } }

/-- `ControlBuilder::max` (`src/controls/date.rs`): static maximum. -/
def ControlBuilder.max (b : ControlBuilder DateData) (m : String) :
    ControlBuilder DateData :=
  { b with data := { b.data with max := some (MaybeSignal.Static m) } }

/-- `ControlBuilder::max_signal` (`src/controls/date.rs`): reactive maximum,
written into the same `max` field. -/
def ControlBuilder.max_signal (b : ControlBuilder DateData) (s : Nat) :
    ControlBuilder DateData :=
  { b with data := { b.data with max := some (MaybeSignal.Dynamic s) } }

/-- Modelled from the spec (§4.2): `FormBuilder::new_control` (module not
under `src/`) starts a fresh builder from the kind's default configuration
and applies the caller's builder function; building never fails. -/
def build_date (f : ControlBuilder DateData → ControlBuilder DateData) : DateData :=
  (f { data := DateData.default }).data

/-- `DateData` carries no update-policy field (`src/controls/date.rs`
lines 10-19), so the update-policy accessor of the date configuration is
constantly `none`; policy-carrying controls return their stored policy. -/
def DateData.update_policy (_d : DateData) : Option UpdateEvent := none

/-- A rendered node: an element with attributes and children, a text
node, or a fragment (a `view!` block with several roots). -/
inductive View where
  | text : String → View
  | element : String → List (String × String) → List View → View
  | fragment : List View → View
deriving Repr

/-- `ControlRenderData` (control configuration wrapped with its attached
style attributes); the defining module is not under `src/`, its two fields
are read throughout `src/styles/flowbite.rs`. -/
structure ControlRenderData (D : Type) where
  data : D
  styles : List FbStyleAttr
deriving Repr

/-- The attribute-resolution loop of `FbFormStyle::common_component`
(`src/styles/flowbite.rs` lines 77-84): width starts at 12, tooltip at
none, and each attribute in order overwrites its slot. -/
def resolveStyles (styles : List FbStyleAttr) : Nat × Option String :=
  styles.foldl
    (fun acc a =>
      match a with
      | .Width w => (w, acc.2)
      | .Tooltip t => (acc.1, some t))
    (12, none)

/-- Optional attribute: rendered only when the value is present. -/
def optAttr (key : String) : Option String → List (String × String)
  | some v => [(key, v)]
  | none => []

/-- `FbFormStyle::common_component` (`src/styles/flowbite.rs`): wraps the
inner view in a div carrying the parent class, the grid-column span for
the resolved width, and the resolved tooltip as the html title. -/
def common_component (styles : List FbStyleAttr) (parent_class : String) (inner : View) : View :=
  let wt := resolveStyles styles
  View.element "div"
    ([("class", parent_class), ("style:grid-column", "span " ++ toString wt.1)] ++
      optAttr "title" wt.2)
    [inner]

/-- `FbFormStyle::group` (`src/styles/flowbite.rs` lines 106-110), with
the child sequence folded in insertion order. Modelled from the spec
(§4.5): Form Assembly (module not under `src/`) renders a Group's
children in insertion order and passes the composed views to the style's
`group` operation, which wraps them and applies the group's own styles. -/
def render_group (group : ControlRenderData (List View)) : View :=
  common_component group.styles "group_parent"
    (View.element "div" [("class", "form_group form_grid")] group.data)

/-- First attribute value with the given key, if any. -/
def View.attr (v : View) (key : String) : Option String :=
  match v with
  | .element _ attrs _ => (attrs.find? (fun p => p.1 == key)).map (fun p => p.2)
  | _ => none

/-- The children of a node. -/
def View.children : View → List View
  | .text _ => []
  | .element _ _ cs => cs
  | .fragment cs => cs

/-- `FbFormStyle::input_class` (`src/styles/flowbite.rs`). -/
def input_class : String :=
  "bg-gray-50 border border-gray-300 text-gray-900 text-sm rounded-lg focus:ring-blue-500 focus:border-blue-500 block w-full p-2.5 dark:bg-gray-700 dark:border-gray-600 dark:placeholder-gray-400 dark:text-white dark:focus:ring-blue-500 dark:focus:border-blue-500"

/-- `FbFormStyle::input_class_error` (`src/styles/flowbite.rs`). -/
def input_class_error : String :=
  "bg-red-50 border border-red-500 text-red-900 placeholder-red-700 text-sm rounded-lg focus:ring-red-500 dark:bg-gray-700 focus:border-red-500 block w-full p-2.5 dark:text-red-500 dark:placeholder-red-500 dark:border-red-500"

/-- `FbFormStyle::text_class` (`src/styles/flowbite.rs`). -/
def text_class : String :=
  "block w-full p-4 text-gray-900 border border-gray-300 rounded-lg bg-gray-50 text-base focus:ring-blue-500 focus:border-blue-500 dark:bg-gray-700 dark:border-gray-600 dark:placeholder-gray-400 dark:text-white dark:focus:ring-blue-500 dark:focus:border-blue-500"

/-- `FbFormStyle::text_class_error` (`src/styles/flowbite.rs`). -/
def text_class_error : String :=
  "block w-full p-4 bg-red-50 border border-red-500 text-red-900 placeholder-red-700 text-base rounded-lg  focus:ring-red-500 focus:border-red-500 dark:bg-gray-700 dark:border-red-600 dark:placeholder-red-500 dark:text-red-500 dark:focus:ring-red-500 dark:focus:border-red-500"

/-- `FbFormStyle::radio_class` (`src/styles/flowbite.rs`). -/
def radio_class : String :=
  "w-4 h-4 text-blue-600 bg-gray-100 border-gray-300 focus:ring-blue-500 dark:focus:ring-blue-600 dark:ring-offset-gray-800 focus:ring-2 dark:bg-gray-700 dark:border-gray-600"

/-- `FbFormStyle::radio_class_error` (`src/styles/flowbite.rs`). -/
def radio_class_error : String :=
  "w-4 h-4 text-red-900 bg-gray-100 border-red-500 focus:ring-red-500 dark:focus:ring-red-600 dark:ring-offset-red-800 focus:ring-2 dark:bg-red-700 dark:border-red-600"

/-- `FbFormStyle::label_class` (`src/styles/flowbite.rs`). -/
def label_class : String :=
  "block mb-2 text-sm font-medium text-gray-900 dark:text-white"

/-- `FbFormStyle::label_class_error` (`src/styles/flowbite.rs`). -/
def label_class_error : String :=
  "block mb-2 text-sm font-medium text-red-700 dark:text-red-500"

/-- `FbFormStyle::class_error_message` (`src/styles/flowbite.rs`). -/
def class_error_message : String :=
  "mt-2 text-sm text-red-600 dark:text-red-500"

/-- The reactive input-class closure of the Flowbite bound controls:
the error class when the validation state `is_err`, the normal class
otherwise. -/
def input_class_of (vs : ValidationState) : String :=
  if vs.is_err then input_class_error else input_class

/-- The reactive textarea-class closure of `FbFormStyle::text_area`. -/
def text_class_of (vs : ValidationState) : String :=
  if vs.is_err then text_class_error else text_class

/-- The reactive radio-class closure of `FbFormStyle::radio_buttons`. -/
def radio_class_of (vs : ValidationState) : String :=
  if vs.is_err then radio_class_error else radio_class

/-- The reactive label-class closure of the Flowbite bound controls. -/
def label_class_of (vs : ValidationState) : String :=
  if vs.is_err then label_class_error else label_class

/-- An `Option<String>` child: leptos renders nothing for `None`. -/
def optText : Option String → List View
  | some s => [View.text s]
  | none => []

/-- The `Show when=is_err` error-message block shared by the Flowbite
bound controls: a `p` with `class_error_message` holding `take_msg`,
present exactly when the validation state `is_err`. -/
def error_show (vs : ValidationState) : List View :=
  if vs.is_err then
    [View.element "p" [("class", class_error_message)] [View.text vs.take_msg]]
  else []

/-- Modelled from the spec: `TextInputData` (module not under `src/`),
with the fields `FbFormStyle::text_input` reads: name, label,
placeholder, input type, and the attached update policy. -/
structure TextInputData where
  name : String
  label : Option String
  placeholder : Option String
  input_type : String
  update_event : UpdateEvent
deriving DecidableEq, Repr

/-- Modelled from the spec: `TextAreaData` (module not under `src/`),
with the fields `FbFormStyle::text_area` reads. -/
structure TextAreaData where
  name : String
  label : Option String
  placeholder : Option String
  update_event : UpdateEvent
deriving DecidableEq, Repr

/-- Modelled from the spec: `SelectData` (module not under `src/`), with
the fields `FbFormStyle::select` reads: the ordered (display, value)
options and the optional blank-option label. -/
structure SelectData where
  name : String
  label : Option String
  options : List (String × String)
  blank_option : Option String
deriving DecidableEq, Repr

/-- Modelled from the spec: `RadioButtonsData` (module not under
`src/`), with the fields `FbFormStyle::radio_buttons` reads. -/
structure RadioButtonsData where
  name : String
  label : Option String
  options : List (String × String)
deriving DecidableEq, Repr

/-- Modelled from the spec: `CheckboxData` (module not under `src/`),
with the fields `FbFormStyle::checkbox` reads. -/
structure CheckboxData where
  name : String
  label : Option String
deriving DecidableEq, Repr

/-- Modelled from the spec: `StepperData` (module not under `src/`),
with the fields `FbFormStyle::stepper` reads. -/
structure StepperData where
  name : String
  label : Option String
  step : Option String
  min : Option String
  max : Option String
deriving DecidableEq, Repr

/-- Modelled from the spec: `SliderData` (module not under `src/`),
with the fields `FbFormStyle::slider` reads. -/
structure SliderData where
  name : String
  label : Option String
  min : Option String
  max : Option String
deriving DecidableEq, Repr

/-- `FbFormStyle::text_input` (`src/styles/flowbite.rs` lines 202-264),
rendered at the current getter value and validation state. -/
def render_text_input (rd : ControlRenderData TextInputData) (gv : String)
    (vs : ValidationState) : View :=
  let d := rd.data
  let input := View.element "input"
    ([("type", d.input_type), ("id", d.name), ("name", d.name)] ++
      optAttr "placeholder" d.placeholder ++
      [("class", input_class_of vs), ("prop:value", gv)]) []
  let labelNode := View.element "label"
    [("for", d.name), ("class", label_class_of vs)] (optText d.label)
  common_component rd.styles ""
    (View.fragment ([labelNode, input] ++ error_show vs))

/-- `FbFormStyle::text_area` (`src/styles/flowbite.rs` lines 266-326). -/
def render_text_area (rd : ControlRenderData TextAreaData) (gv : String)
    (vs : ValidationState) : View :=
  let d := rd.data
  let input := View.element "textarea"
    ([("id", d.name), ("name", d.name)] ++
      optAttr "placeholder" d.placeholder ++
      [("prop:value", gv), ("style", "resize: vertical;"), ("class", text_class_of vs)]) []
  let labelNode := View.element "label"
    [("for", d.name), ("class", label_class_of vs)] (optText d.label)
  common_component rd.styles ""
    (View.fragment ([labelNode, input] ++ error_show vs))

/-- One `option` element of `FbFormStyle::select`. -/
def select_option (gv : String) (p : String × String) : View :=
  View.element "option" [("value", p.2), ("selected", toString (gv == p.2))] [View.text p.1]

/-- The blank option of `FbFormStyle::select`, when configured. -/
def blank_option_view (gv : String) : Option String → List View
  | some display =>
      [View.element "option" [("value", ""), ("selected", toString (gv == ""))]
        [View.text display]]
  | none => []

/-- `FbFormStyle::select` (`src/styles/flowbite.rs` lines 403-475). -/
def render_select (rd : ControlRenderData SelectData) (gv : String)
    (vs : ValidationState) : View :=
  let d := rd.data
  let selectNode := View.element "select"
    [("id", d.name), ("name", d.name), ("class", input_class_of vs)]
    (blank_option_view gv d.blank_option ++ d.options.map (select_option gv))
  let labelNode := View.element "label"
    [("for", d.name), ("class", label_class_of vs)] (optText d.label)
  common_component rd.styles ""
    (View.fragment ([labelNode, selectNode] ++ error_show vs))

/-- One radio option of `FbFormStyle::radio_buttons`: a div holding the
radio input and the per-option display label. -/
def radio_option (cls : String) (control_name : String) (gv : String)
    (p : String × String) : View :=
  View.element "div" [("class", "flex items-center mb-4")]
    [View.element "input"
      [("type", "radio"), ("id", p.2), ("name", control_name), ("value", p.2),
        ("class", cls), ("prop:checked", toString (gv == p.2))] [],
     View.element "label"
      [("for", p.2), ("class", "ms-2 text-sm font-medium text-gray-900 dark:text-gray-300")]
      [View.text p.1]]

/-- `FbFormStyle::radio_buttons` (`src/styles/flowbite.rs` lines 328-401). -/
def render_radio_buttons (rd : ControlRenderData RadioButtonsData) (gv : String)
    (vs : ValidationState) : View :=
  let d := rd.data
  let buttons := d.options.map (radio_option (radio_class_of vs) d.name gv)
  let labelNode := View.element "label"
    [("for", d.name), ("class", label_class_of vs)] (optText d.label)
  common_component rd.styles ""
    (View.fragment
      ([labelNode,
        View.element "div"
          [("class", "flex flex-col"), ("class:form_input_invalid", toString vs.is_err)]
          buttons] ++ error_show vs))

/-- `FbFormStyle::stepper` (`src/styles/flowbite.rs` lines 518-566). -/
def render_stepper (rd : ControlRenderData StepperData) (gv : String)
    (vs : ValidationState) : View :=
  let d := rd.data
  let input := View.element "input"
    ([("type", "number"), ("id", d.name), ("name", d.name)] ++
      optAttr "step" d.step ++ optAttr "min" d.min ++ optAttr "max" d.max ++
      [("class", input_class_of vs), ("prop:value", gv)]) []
  let labelNode := View.element "label"
    [("for", d.name), ("class", label_class_of vs)] (optText d.label)
  common_component rd.styles ""
    (View.fragment ([labelNode, input] ++ error_show vs))

/-- `FbFormStyle::slider` (`src/styles/flowbite.rs` lines 568-621): label,
range input and error block all live inside one relative div. -/
def render_slider (rd : ControlRenderData SliderData) (gv : String)
    (vs : ValidationState) : View :=
  let d := rd.data
  let input := View.element "input"
    ([("type", "range"), ("id", d.name), ("name", d.name)] ++
      optAttr "min" d.min ++ optAttr "max" d.max ++
      [("class", input_class_of vs), ("prop:value", gv)]) []
  let labelNode := View.element "label"
    [("for", d.name), ("class", label_class_of vs)] (optText d.label)
  common_component rd.styles ""
    (View.fragment
      [View.element "div" [("class", "relative mb-6")]
        ([labelNode, input] ++ error_show vs)])

/-- `FbFormStyle::date` (`src/styles/flowbite.rs` lines 623-685): the
label precedes a relative div holding the datepicker text input and the
error block; min/max are the resolved `MaybeSignal` bounds. -/
def render_date (rd : ControlRenderData DateData) (env : Nat → String) (gv : String)
    (vs : ValidationState) : View :=
  let d := rd.data
  let input := View.element "input"
    ([("type", "text"), ("id", d.name), ("name", d.name)] ++
      optAttr "min" (d.min.map (MaybeSignal.resolve env)) ++
      optAttr "max" (d.max.map (MaybeSignal.resolve env)) ++
      [("datepicker", ""), ("placeholder", "Select date"),
        ("class", input_class_of vs), ("prop:value", gv)]) []
  let labelNode := View.element "label"
    [("for", d.name), ("class", label_class_of vs)] (optText d.label)
  common_component rd.styles ""
    (View.fragment
      [labelNode,
       View.element "div" [("class", "relative mb-6")]
        ([input] ++ error_show vs)])

/-- `FbFormStyle::checkbox` (`src/styles/flowbite.rs` lines 477-516): no
validation signal is taken, and the label text falls back to the control
name when no label is configured. -/
def render_checkbox (rd : ControlRenderData CheckboxData) (gv : Bool) : View :=
  let d := rd.data
  let label := d.label.getD d.name
  common_component rd.styles ""
    (View.element "div" [("class", "flex items-center mb-4")]
      [View.element "input"
        [("type", "checkbox"), ("id", d.name), ("name", d.name),
          ("style", "margin: auto 0;"),
          ("class", "w-4 h-4 text-blue-600 bg-gray-100 border-gray-300 rounded focus:ring-blue-500 dark:focus:ring-blue-600 dark:ring-offset-gray-800 focus:ring-2 dark:bg-gray-700 dark:border-gray-600"),
          ("prop:checked", toString gv)] [],
       View.element "label"
        [("for", d.name), ("class", "ms-2 text-sm font-medium text-gray-900 dark:text-gray-300")]
        [View.text label]])

/-- The text content of a node, if it is a text node. -/
def View.textOf : View → Option String
  | .text s => some s
  | _ => none

mutual

/-- All error messages present in a view: the text under every `p`
element carrying the Flowbite error-message class. -/
def error_msgs : View → List String
  | .text _ => []
  | .fragment cs => error_msgs_list cs
  | .element tag attrs cs =>
      (if tag == "p" && attrs.contains ("class", class_error_message) then
        cs.filterMap View.textOf
      else []) ++ error_msgs_list cs

/-- `error_msgs` over a list of views, left to right. -/
def error_msgs_list : List View → List String
  | [] => []
  | v :: vs => error_msgs v ++ error_msgs_list vs

end

mutual

/-- The children of the first `label` element in preorder, if any. -/
def first_label : View → Option (List View)
  | .text _ => none
  | .fragment cs => first_label_list cs
  | .element tag _ cs =>
      if tag == "label" then some cs else first_label_list cs

/-- `first_label` over a list of views, left to right. -/
def first_label_list : List View → Option (List View)
  | [] => none
  | v :: vs =>
      match first_label v with
      | some r => some r
      | none => first_label_list vs

end

/-- The text rendered inside a view's first (main) label element. -/
def label_texts (v : View) : List String :=
  match first_label v with
  | some cs => cs.filterMap View.textOf
  | none => []

/-- The events `FbFormStyle::text_input` attaches the value-setter
handler to (`src/styles/flowbite.rs` lines 230-240): exactly one,
selected by the control's update policy. -/
def text_input_update_events (d : TextInputData) : List Event :=
  match d.update_event with
  | .OnFocusout => [Event.focusout]
  | .OnInput => [Event.input]
  | .OnChange => [Event.change]

/-- The events `FbFormStyle::text_area` attaches the value-setter
handler to (`src/styles/flowbite.rs` lines 292-302). -/
def text_area_update_events (d : TextAreaData) : List Event :=
  match d.update_event with
  | .OnFocusout => [Event.focusout]
  | .OnInput => [Event.input]
  | .OnChange => [Event.change]

/-- The events `FbFormStyle::date` attaches the value-setter handler to
(`src/styles/flowbite.rs` lines 670-673): unconditionally `on:input`,
for every date configuration. -/
def date_update_events (_d : DateData) : List Event := [Event.input]

/-- The events `FbFormStyle::select` attaches the value-setter handler
to (`src/styles/flowbite.rs` line 461): unconditionally `on:input`, for
every select configuration. -/
def select_update_events (_d : SelectData) : List Event := [Event.input]

/-- The events `FbFormStyle::radio_buttons` attaches the value-setter
handler to (`src/styles/flowbite.rs` line 360, on each radio option):
unconditionally `on:input`, for every radio-group configuration. -/
def radio_buttons_update_events (_d : RadioButtonsData) : List Event := [Event.input]

/-- The events `FbFormStyle::checkbox` attaches the value-setter handler
to (`src/styles/flowbite.rs` line 498): unconditionally `on:input`, for
every checkbox configuration. -/
def checkbox_update_events (_d : CheckboxData) : List Event := [Event.input]

/-- The events `FbFormStyle::stepper` attaches the value-setter handler
to (`src/styles/flowbite.rs` line 555): unconditionally `on:input`, for
every stepper configuration. -/
def stepper_update_events (_d : StepperData) : List Event := [Event.input]

/-- The events `FbFormStyle::slider` attaches the value-setter handler
to (`src/styles/flowbite.rs` line 606): unconditionally `on:input`, for
every slider configuration. -/
def slider_update_events (_d : SliderData) : List Event := [Event.input]

/-- Number of setter invocations an event sequence produces on a control
whose setter handler is attached to the given events: one invocation per
occurrence of an attached event. -/
def setter_calls (handlers : List Event) (evs : List Event) : Nat :=
  (evs.filter (fun e => handlers.contains e)).length

/-- The control kinds of the form (spec §3), one per `FormStyle`
rendering operation implemented in `src/styles/flowbite.rs`. -/
inductive ControlKind where
  | textInput : ControlKind
  | textArea : ControlKind
  | date : ControlKind
  | select : ControlKind
  | radioButtons : ControlKind
  | checkbox : ControlKind
  | slider : ControlKind
  | stepper : ControlKind
  | heading : ControlKind
  | output : ControlKind
  | button : ControlKind
  | submit : ControlKind
  | spacer : ControlKind
  | hidden : ControlKind
deriving DecidableEq, Repr

/-- How a rendering operation receives the value getter: as a required
signal, as an optional signal, or not at all. -/
inductive GetterKind where
  | required : GetterKind
  | optionalSig : GetterKind
  | absent : GetterKind
deriving DecidableEq, Repr

/-- The binding inputs a rendering operation receives. -/
structure BindingInputs where
  getter : GetterKind
  setter : Bool
  validation : Bool
deriving DecidableEq, Repr

/-- The binding inputs of each `FormStyle` rendering operation, read off
the method signatures of `impl FormStyle for FbFormStyle`
(`src/styles/flowbite.rs`): bound controls take a getter, a setter and a
validation signal — except `checkbox` (lines 477-482), which takes no
validation signal; display-only controls take only an optional getter,
and `spacer` takes none. -/
def bindingInputs : ControlKind → BindingInputs
  | .textInput => ⟨.required, true, true⟩
  | .textArea => ⟨.required, true, true⟩
  | .date => ⟨.required, true, true⟩
  | .select => ⟨.required, true, true⟩
  | .radioButtons => ⟨.required, true, true⟩
  | .checkbox => ⟨.required, true, false⟩
  | .slider => ⟨.required, true, true⟩
  | .stepper => ⟨.required, true, true⟩
  | .heading => ⟨.optionalSig, false, false⟩
  | .output => ⟨.optionalSig, false, false⟩
  | .button => ⟨.optionalSig, false, false⟩
  | .submit => ⟨.optionalSig, false, false⟩
  | .spacer => ⟨.absent, false, false⟩
  | .hidden => ⟨.optionalSig, false, false⟩

/-- The display-only kinds named by the spec (§4.3): Heading, Output,
Button, Submit, Spacer, Hidden. -/
def displayOnly : ControlKind → Bool
  | .heading => true
  | .output => true
  | .button => true
  | .submit => true
  | .spacer => true
  | .hidden => true
  | _ => false

/-- The message list of a validation state: the `Invalid` message, and
nothing in the `Valid` and `Pending` states. -/
def ValidationState.msg_list : ValidationState → List String
  | .Invalid m => [m]
  | _ => []

/-- Claim C3 counterexample: the date builder's setter calls are not
order-independent: `show_today true` then `show_buttons false` differs
from `show_buttons false` then `show_today true`, because `show_today`
also overwrites the `show_buttons` field. -/
theorem C3_show_today_show_buttons_not_commutative :
    ((ControlBuilder.show_buttons (ControlBuilder.show_today
        { data := DateData.default } true) false).data ≠
      (ControlBuilder.show_today (ControlBuilder.show_buttons
        { data := DateData.default } false) true).data) := by
  decide

/-- The eight fields of the date configuration record. -/
inductive DateField where
  | name : DateField
  | label : DateField
  | show_buttons : DateField
  | show_today : DateField
  | title : DateField
  | format : DateField
  | min : DateField
  | max : DateField
deriving DecidableEq, Repr, Fintype

/-- One date-builder setter call with its argument, covering the ten
setters of `src/controls/date.rs`. -/
inductive DateSetter where
  | named : String → DateSetter
  | labeled : String → DateSetter
  | title : String → DateSetter
  | show_today : Bool → DateSetter
  | show_buttons : Bool → DateSetter
  | format : String → DateSetter
  | min : String → DateSetter
  | min_signal : Nat → DateSetter
  | max : String → DateSetter
  | max_signal : Nat → DateSetter
deriving DecidableEq, Repr

/-- Apply one setter call, dispatching to the source setters. -/
def DateSetter.apply : DateSetter → ControlBuilder DateData → ControlBuilder DateData
  | .named s, b => b.named s
  | .labeled s, b => b.labeled s
  | .title s, b => b.title s
  | .show_today v, b => b.show_today v
  | .show_buttons v, b => b.show_buttons v
  | .format s, b => b.format s
  | .min s, b => b.min s
  | .min_signal n, b => b.min_signal n
  | .max s, b => b.max s
  | .max_signal n, b => b.max_signal n

/-- The configuration fields a setter call writes, read off the setter
bodies of `src/controls/date.rs`: each setter writes one field, except
`show_today`, which writes both `show_today` and `show_buttons`. -/
def DateSetter.fields : DateSetter → List DateField
  | .named _ => [DateField.name]
  | .labeled _ => [DateField.label]
  | .title _ => [DateField.title]
  | .show_today _ => [DateField.show_today, DateField.show_buttons]
  | .show_buttons _ => [DateField.show_buttons]
  | .format _ => [DateField.format]
  | .min _ => [DateField.min]
  | .min_signal _ => [DateField.min]
  | .max _ => [DateField.max]
  | .max_signal _ => [DateField.max]

/-- A chain of setter calls, applied left to right. -/
def apply_all (l : List DateSetter) (b : ControlBuilder DateData) :
    ControlBuilder DateData :=
  l.foldl (fun b s => s.apply b) b

/-- Two setter calls writing disjoint field sets commute. -/
lemma date_setter_apply_comm (s1 s2 : DateSetter)
    (h : ∀ f, f ∈ s1.fields → f ∉ s2.fields) (b : ControlBuilder DateData) :
    s2.apply (s1.apply b) = s1.apply (s2.apply b) := by
  obtain ⟨⟨nm, lb, sbf, stf, tif, fof, mif, maf⟩⟩ := b
  cases s1 <;> cases s2 <;>
    first
      | rfl
      | (exfalso; simp only [DateSetter.fields] at h; revert h; decide)

/-- Disjointness of written field sets is a symmetric relation. -/
lemma date_setter_disjoint_symm :
    Symmetric (fun a c : DateSetter => ∀ f, f ∈ a.fields → f ∉ c.fields) :=
  fun _ _ hac f hfc hfa => hac f hfa hfc

/-- A chain of pairwise field-disjoint setter calls yields the same
configuration under any permutation. -/
lemma apply_all_perm {l1 l2 : List DateSetter} (hp : l1.Perm l2) :
    l1.Pairwise (fun a c => ∀ f, f ∈ a.fields → f ∉ c.fields) →
      ∀ b, apply_all l1 b = apply_all l2 b := by
  induction hp with
  | nil => intro _ _; rfl
  | cons x hp ih =>
      intro hd b
      rw [apply_all, List.foldl_cons, apply_all, List.foldl_cons]
      exact ih hd.of_cons (x.apply b)
  | swap x y l =>
      intro hd b
      rw [apply_all, List.foldl_cons, List.foldl_cons,
        apply_all, List.foldl_cons, List.foldl_cons]
      rw [date_setter_apply_comm y x
        ((List.pairwise_cons.mp hd).1 x (List.mem_cons_self x l)) b]
  | trans h1 h2 ih1 ih2 =>
      intro hd b
      rw [ih1 hd b,
        ih2 ((List.Perm.pairwise_iff (fun hab => date_setter_disjoint_symm hab) h1).mp hd) b]

/-- Claim C3 (amended): date-builder setter calls writing disjoint sets
of configuration fields are order-independent — every such pair commutes
on every builder, and a whole chain of pairwise field-disjoint setter
calls (any subset of setters, applied in any order) yields the same
configuration under any permutation; pairs writing a common field are
excluded, in particular `show_today`/`show_buttons`, since `show_today`
also writes the `show_buttons` field. -/
theorem C3_disjoint_setters_commute (s1 s2 : DateSetter)
    (hs : ∀ f, f ∈ s1.fields → f ∉ s2.fields)
    (l1 l2 : List DateSetter) (hp : l1.Perm l2)
    (hl : l1.Pairwise (fun a c => ∀ f, f ∈ a.fields → f ∉ c.fields))
    (b : ControlBuilder DateData) :
    s2.apply (s1.apply b) = s1.apply (s2.apply b) ∧
    apply_all l1 b = apply_all l2 b :=
  ⟨date_setter_apply_comm s1 s2 hs b, apply_all_perm hp hl b⟩

/-- Claim C3 witness: `min` and `max` commute on the default builder,
and the chain `named`-then-`labeled` equals `labeled`-then-`named`. -/
theorem C3_disjoint_setters_commute_witness :
    (DateSetter.max "2024-12-31").apply
        ((DateSetter.min "2024-01-01").apply { data := DateData.default }) =
      (DateSetter.min "2024-01-01").apply
        ((DateSetter.max "2024-12-31").apply { data := DateData.default }) ∧
    apply_all [DateSetter.named "d", DateSetter.labeled "D"] { data := DateData.default } =
      apply_all [DateSetter.labeled "D", DateSetter.named "d"] { data := DateData.default } :=
  C3_disjoint_setters_commute (DateSetter.min "2024-01-01") (DateSetter.max "2024-12-31")
    (by decide)
    [DateSetter.named "d", DateSetter.labeled "D"]
    [DateSetter.labeled "D", DateSetter.named "d"]
    (List.Perm.swap (DateSetter.labeled "D") (DateSetter.named "d") [])
    (by decide)
    { data := DateData.default }

/-- Claim C4: `min`/`min_signal` resolve to the same `min` field and
`max`/`max_signal` to the same `max` field (static vs dynamic is a
property of the stored `MaybeSignal` value), the last write to the field
wins — in particular `min v` then `min_signal s` leaves `min` equal to
`Dynamic s` — and neither variant touches the other bound. -/
theorem C4_signal_variant_same_field_last_write_wins
    (b : ControlBuilder DateData) (v w : String) (s u : Nat) :
    ((b.min v).min_signal s).data.min = some (MaybeSignal.Dynamic s) ∧
    ((b.min_signal s).min v).data.min = some (MaybeSignal.Static v) ∧
    ((b.max w).max_signal u).data.max = some (MaybeSignal.Dynamic u) ∧
    ((b.max_signal u).max w).data.max = some (MaybeSignal.Static w) ∧
    (b.min v).data.min = some (MaybeSignal.Static v) ∧
    (b.min_signal s).data.min = some (MaybeSignal.Dynamic s) ∧
    (b.max w).data.max = some (MaybeSignal.Static w) ∧
    (b.max_signal u).data.max = some (MaybeSignal.Dynamic u) ∧
    (b.min v).data.max = b.data.max ∧
    (b.min_signal s).data.max = b.data.max ∧
    (b.max w).data.min = b.data.min ∧
    (b.max_signal u).data.min = b.data.min :=
  ⟨rfl, rfl, rfl, rfl, rfl, rfl, rfl, rfl, rfl, rfl, rfl, rfl⟩

/-- Claim C7: building a date control with no optional fields set yields
exactly `DateData`'s default instance — empty name, every optional field
absent — and the builder pipeline is a total function, so construction
cannot fail. -/
theorem C7_build_with_no_setters_is_default :
    build_date id = DateData.default ∧
    DateData.default.name = "" ∧
    DateData.default.label = none ∧
    DateData.default.show_buttons = none ∧
    DateData.default.show_today = none ∧
    DateData.default.title = none ∧
    DateData.default.format = none ∧
    DateData.default.min = none ∧
    DateData.default.max = none :=
  ⟨rfl, rfl, rfl, rfl, rfl, rfl, rfl, rfl, rfl⟩

/-- Claim C9: `show_today b` writes `Static b` into both the
`show_today` and `show_buttons` fields and leaves the six other fields
unchanged; every other date-builder setter writes exactly one field and
leaves all other fields unchanged. -/
theorem C9_setter_frame_conditions (b : ControlBuilder DateData)
    (n l ti fo v w : String) (td sb : Bool) (s u : Nat) :
    ((b.show_today td).data.show_today = some (MaybeSignal.Static td) ∧
      (b.show_today td).data.show_buttons = some (MaybeSignal.Static td) ∧
      (b.show_today td).data.name = b.data.name ∧
      (b.show_today td).data.label = b.data.label ∧
      (b.show_today td).data.title = b.data.title ∧
      (b.show_today td).data.format = b.data.format ∧
      (b.show_today td).data.min = b.data.min ∧
      (b.show_today td).data.max = b.data.max) ∧
    (b.named n).data = { b.data with name := n } ∧
    (b.labeled l).data = { b.data with label := some l } ∧
    (b.title ti).data = { b.data with title := some ti } ∧
    (b.format fo).data = { b.data with format := some fo } ∧
    (b.show_buttons sb).data =
      { b.data with show_buttons := some (MaybeSignal.Static sb) } ∧
    (b.min v).data = { b.data with min := some (MaybeSignal.Static v) } ∧
    (b.min_signal s).data = { b.data with min := some (MaybeSignal.Dynamic s) } ∧
    (b.max w).data = { b.data with max := some (MaybeSignal.Static w) } ∧
    (b.max_signal u).data = { b.data with max := some (MaybeSignal.Dynamic u) } :=
  ⟨⟨rfl, rfl, rfl, rfl, rfl, rfl, rfl, rfl⟩,
    rfl, rfl, rfl, rfl, rfl, rfl, rfl, rfl, rfl⟩

/-- An event sequence made of events no handler is attached to produces
zero setter invocations. -/
lemma setter_calls_replicate_of_not_attached (hs : List Event) (e : Event)
    (n : Nat) (h : hs.contains e = false) :
    setter_calls hs (List.replicate n e) = 0 := by
  induction n with
  | zero => rfl
  | succ k ih =>
      rw [setter_calls, List.replicate_succ, List.filter_cons, if_neg (by simpa using h)]
      exact ih

/-- Claim C2 counterexample: the date configuration carries no update
policy (the `DateData` record of `src/controls/date.rs` has no
update-policy field), yet the Flowbite style wires the date control's
value setter — unconditionally — to the input event. -/
theorem C2_date_has_no_update_policy :
    DateData.update_policy DateData.default = none ∧
    date_update_events DateData.default = [Event.input] :=
  ⟨rfl, rfl⟩

/-- Claim C2 (amended): text input and text area each carry exactly one
update policy and the style attaches the value setter to exactly the
event named by that policy and to no other event — in particular N
consecutive input events on an `OnFocusout` control produce zero setter
invocations. Every other editable control — date, select, radio group,
checkbox, slider, stepper — is not governed by a policy: the style
attaches its value setter to the input event for every configuration,
and the date configuration carries no policy field at all. -/
theorem C2_setter_fires_per_update_policy (d : TextInputData)
    (a : TextAreaData) (dd : DateData) (sd : SelectData)
    (rb : RadioButtonsData) (cd : CheckboxData) (st : StepperData)
    (sld : SliderData) (e : Event) (n : Nat) :
    (e ∈ text_input_update_events d ↔ e = d.update_event.event) ∧
    (text_input_update_events d).length = 1 ∧
    (e ∈ text_area_update_events a ↔ e = a.update_event.event) ∧
    (text_area_update_events a).length = 1 ∧
    (d.update_event = UpdateEvent.OnFocusout →
      setter_calls (text_input_update_events d) (List.replicate n Event.input) = 0) ∧
    (e ∈ date_update_events dd ↔ e = Event.input) ∧
    (e ∈ select_update_events sd ↔ e = Event.input) ∧
    (e ∈ radio_buttons_update_events rb ↔ e = Event.input) ∧
    (e ∈ checkbox_update_events cd ↔ e = Event.input) ∧
    (e ∈ stepper_update_events st ↔ e = Event.input) ∧
    (e ∈ slider_update_events sld ↔ e = Event.input) ∧
    dd.update_policy = none := by
  refine ⟨?_, ?_, ?_, ?_, ?_, ?_, ?_, ?_, ?_, ?_, ?_, rfl⟩
  · cases h : d.update_event <;> simp [text_input_update_events, h, UpdateEvent.event]
  · cases h : d.update_event <;> simp [text_input_update_events, h]
  · cases h : a.update_event <;> simp [text_area_update_events, h, UpdateEvent.event]
  · cases h : a.update_event <;> simp [text_area_update_events, h]
  · intro h
    rw [text_input_update_events, h]
    exact setter_calls_replicate_of_not_attached _ _ _ (by decide)
  · simp [date_update_events]
  · simp [select_update_events]
  · simp [radio_buttons_update_events]
  · simp [checkbox_update_events]
  · simp [stepper_update_events]
  · simp [slider_update_events]

/-- Claim C2 witness: five consecutive input events on an `OnFocusout`
text input produce zero setter invocations. -/
theorem C2_setter_fires_per_update_policy_witness :
    setter_calls
      (text_input_update_events
        { name := "email", label := none, placeholder := none,
          input_type := "text", update_event := UpdateEvent.OnFocusout })
      (List.replicate 5 Event.input) = 0 :=
  (C2_setter_fires_per_update_policy
    { name := "email", label := none, placeholder := none,
      input_type := "text", update_event := UpdateEvent.OnFocusout }
    { name := "", label := none, placeholder := none,
      update_event := UpdateEvent.OnInput }
    DateData.default
    { name := "", label := none, options := [], blank_option := none }
    { name := "", label := none, options := [] }
    { name := "", label := none }
    { name := "", label := none, step := none, min := none, max := none }
    { name := "", label := none, min := none, max := none }
    Event.input 5).2.2.2.2.1 rfl

/-- Claim C5 counterexample: the checkbox is a bound control — its
rendering operation takes a value setter — but it receives no validation
signal, so it does not receive exactly three binding inputs. -/
theorem C5_checkbox_receives_no_validation_signal :
    (bindingInputs ControlKind.checkbox).setter = true ∧
    (bindingInputs ControlKind.checkbox).validation = false := by
  decide

/-- Claim C5 (amended): every bound control except the checkbox is
rendered with exactly three inputs — value getter, value setter,
validation signal; the checkbox receives a getter and a setter but no
validation signal; display-only controls (Heading, Output, Button,
Submit, Spacer, Hidden) receive at most an optional getter and never a
setter or validation signal. -/
theorem C5_binding_inputs_per_kind (k : ControlKind) :
    (displayOnly k = false → k ≠ ControlKind.checkbox →
      bindingInputs k = ⟨GetterKind.required, true, true⟩) ∧
    (displayOnly k = true →
      (bindingInputs k).setter = false ∧ (bindingInputs k).validation = false ∧
        (bindingInputs k).getter ≠ GetterKind.required) ∧
    bindingInputs ControlKind.checkbox = ⟨GetterKind.required, true, false⟩ := by
  cases k <;> exact ⟨by decide, by decide, rfl⟩

/-- Claim C5 witness: the text input receives all three binding inputs
and the heading receives no setter. -/
theorem C5_binding_inputs_per_kind_witness :
    bindingInputs ControlKind.textInput = ⟨GetterKind.required, true, true⟩ ∧
    (bindingInputs ControlKind.heading).setter = false :=
  ⟨(C5_binding_inputs_per_kind ControlKind.textInput).1 (by decide) (by decide),
    ((C5_binding_inputs_per_kind ControlKind.heading).2.1 (by decide)).1⟩

/-- The value of the last `Width` attribute in a style-attribute list,
if any (the spec-side characterization for the resolution loop). -/
def last_width : List FbStyleAttr → Option Nat
  | [] => none
  | FbStyleAttr.Width w :: l =>
      match last_width l with
      | some x => some x
      | none => some w
  | FbStyleAttr.Tooltip _ :: l => last_width l

/-- The value of the last `Tooltip` attribute in a style-attribute list,
if any. -/
def last_tooltip : List FbStyleAttr → Option String
  | [] => none
  | FbStyleAttr.Tooltip t :: l =>
      match last_tooltip l with
      | some x => some x
      | none => some t
  | FbStyleAttr.Width _ :: l => last_tooltip l

/-- The resolution loop of `common_component`, run from an arbitrary
accumulator, yields the last width (defaulting to the accumulator) and
the last tooltip (falling back to the accumulator). -/
lemma resolveStyles_foldl_eq (l : List FbStyleAttr) (w : Nat) (t : Option String) :
    List.foldl
      (fun acc a =>
        match a with
        | FbStyleAttr.Width x => (x, acc.2)
        | FbStyleAttr.Tooltip s => (acc.1, some s))
      (w, t) l
    = ((last_width l).getD w,
        match last_tooltip l with
        | some x => some x
        | none => t) := by
  induction l generalizing w t with
  | nil => simp [last_width, last_tooltip]
  | cons a l ih =>
      cases a with
      | Width x =>
          rw [List.foldl_cons, ih]
          cases h : last_width l <;> simp [last_width, last_tooltip, h]
      | Tooltip s =>
          rw [List.foldl_cons, ih]
          cases h : last_tooltip l <;> simp [last_width, last_tooltip, h]

/-- Claim C10: the styled wrapper resolves the width to the value of the
last `Width` attribute in the control's style-attribute list, defaulting
to 12 when none is present, and the tooltip to the last `Tooltip`
attribute or absent when none is present; the wrapper div carries exactly
those resolved values (grid-column span and html title). -/
theorem C10_wrapper_uses_last_width_and_tooltip (styles : List FbStyleAttr)
    (parent_class : String) (inner : View) :
    resolveStyles styles = ((last_width styles).getD 12, last_tooltip styles) ∧
    (common_component styles parent_class inner).attr "style:grid-column" =
      some ("span " ++ toString ((last_width styles).getD 12)) ∧
    (common_component styles parent_class inner).attr "title" = last_tooltip styles := by
  have hres : resolveStyles styles = ((last_width styles).getD 12, last_tooltip styles) := by
    rw [resolveStyles, resolveStyles_foldl_eq]
    cases last_tooltip styles <;> rfl
  refine ⟨hres, ?_, ?_⟩
  · simp [common_component, View.attr, hres, List.find?]
  · rw [common_component]
    rw [hres]
    cases h : last_tooltip styles <;>
      simp [View.attr, optAttr, List.find?]

/-- Claim C8: rendering a Group places its children — in insertion
order, unchanged — inside the group's inner container, and the Group's
own style attributes (its grid-column width) are applied to the Group's
wrapping container only: the inner container holding the children
carries no grid-column attribute. -/
theorem C8_group_renders_children_in_order_width_on_wrapper
    (styles : List FbStyleAttr) (children : List View) :
    (render_group { data := children, styles := styles }).attr "style:grid-column" =
      some ("span " ++ toString (resolveStyles styles).1) ∧
    (render_group { data := children, styles := styles }).children.map View.children =
      [children] ∧
    (render_group { data := children, styles := styles }).children.map
      (fun c => c.attr "style:grid-column") = [none] :=
  ⟨rfl, rfl, rfl⟩

/-- The styled wrapper div adds no error message of its own. -/
lemma error_msgs_common_component (styles : List FbStyleAttr) (pc : String)
    (inner : View) : error_msgs (common_component styles pc inner) = error_msgs inner := by
  simp [common_component, error_msgs, error_msgs_list]

/-- An optional text child contributes no error message. -/
lemma error_msgs_list_optText (o : Option String) :
    error_msgs_list (optText o) = [] := by
  cases o <;> rfl

/-- The `Show` error block holds exactly the validation state's message
list. -/
lemma error_msgs_list_error_show (vs : ValidationState) :
    error_msgs_list (error_show vs) = vs.msg_list := by
  cases vs <;>
    simp [error_show, error_msgs, error_msgs_list, ValidationState.is_err,
      ValidationState.take_msg, ValidationState.msg_list, View.textOf]

/-- The blank option of the select contributes no error message. -/
lemma error_msgs_list_blank_option (gv : String) (o : Option String) :
    error_msgs_list (blank_option_view gv o) = [] := by
  cases o <;> simp [blank_option_view, error_msgs, error_msgs_list, View.textOf]

/-- The option elements of the select contribute no error message. -/
lemma error_msgs_list_select_options (gv : String) (l : List (String × String)) :
    error_msgs_list (l.map (select_option gv)) = [] := by
  induction l with
  | nil => rfl
  | cons p l ih =>
      simp [select_option, error_msgs, error_msgs_list, View.textOf, ih]

/-- The radio option rows contribute no error message. -/
lemma error_msgs_list_radio_options (cls nm gv : String) (l : List (String × String)) :
    error_msgs_list (l.map (radio_option cls nm gv)) = [] := by
  induction l with
  | nil => rfl
  | cons p l ih =>
      simp [radio_option, error_msgs, error_msgs_list, View.textOf, ih]

/-- `error_msgs_list` distributes over list append. -/
lemma error_msgs_list_append (l1 l2 : List View) :
    error_msgs_list (l1 ++ l2) = error_msgs_list l1 ++ error_msgs_list l2 := by
  induction l1 with
  | nil => rfl
  | cons v l ih => simp [error_msgs_list, ih]

/-- Claim C1 counterexample: the checkbox is a bound control, yet its
rendered output contains no error message even when its validation state
is `Invalid`: the render of a checkbox holds no error element at all,
although the state `Invalid "required"` carries the message "required". -/
theorem C1_checkbox_renders_no_error_message :
    error_msgs
      (render_checkbox { data := { name := "agree", label := none }, styles := [] } false)
      = [] ∧
    (ValidationState.Invalid "required").msg_list = ["required"] :=
  ⟨rfl, rfl⟩

/-- Claim C1 (amended): for the bound controls the Flowbite style
renders with a validation signal — text input, text area, select, radio
group, stepper, slider, date — and for every validation state, the
rendered output contains exactly the validation state's error message
when the state is `Invalid` and no error message in the `Valid` and
`Pending` states; the checkbox, although bound, is rendered without a
validation signal and its output never contains an error message. -/
theorem C1_error_message_iff_invalid_except_checkbox
    (ti : ControlRenderData TextInputData) (ta : ControlRenderData TextAreaData)
    (se : ControlRenderData SelectData) (ra : ControlRenderData RadioButtonsData)
    (sp : ControlRenderData StepperData) (sl : ControlRenderData SliderData)
    (da : ControlRenderData DateData) (cb : ControlRenderData CheckboxData)
    (env : Nat → String) (gv : String) (gb : Bool) (vs : ValidationState) :
    error_msgs (render_text_input ti gv vs) = vs.msg_list ∧
    error_msgs (render_text_area ta gv vs) = vs.msg_list ∧
    error_msgs (render_select se gv vs) = vs.msg_list ∧
    error_msgs (render_radio_buttons ra gv vs) = vs.msg_list ∧
    error_msgs (render_stepper sp gv vs) = vs.msg_list ∧
    error_msgs (render_slider sl gv vs) = vs.msg_list ∧
    error_msgs (render_date da env gv vs) = vs.msg_list ∧
    error_msgs (render_checkbox cb gb) = [] ∧
    (vs.msg_list = [] ↔ vs = ValidationState.Valid ∨ vs = ValidationState.Pending) ∧
    (∀ m, vs.msg_list = [m] ↔ vs = ValidationState.Invalid m) := by
  refine ⟨?_, ?_, ?_, ?_, ?_, ?_, ?_, ?_, ?_, ?_⟩
  · simp only [render_text_input]
    rw [error_msgs_common_component]
    simp [error_msgs, error_msgs_list, error_msgs_list_append,
      error_msgs_list_optText, error_msgs_list_error_show]
  · simp only [render_text_area]
    rw [error_msgs_common_component]
    simp [error_msgs, error_msgs_list, error_msgs_list_append,
      error_msgs_list_optText, error_msgs_list_error_show]
  · simp only [render_select]
    rw [error_msgs_common_component]
    simp [error_msgs, error_msgs_list, error_msgs_list_append,
      error_msgs_list_optText, error_msgs_list_error_show,
      error_msgs_list_blank_option, error_msgs_list_select_options]
  · simp only [render_radio_buttons]
    rw [error_msgs_common_component]
    simp [error_msgs, error_msgs_list, error_msgs_list_append,
      error_msgs_list_optText, error_msgs_list_error_show,
      error_msgs_list_radio_options]
  · simp only [render_stepper]
    rw [error_msgs_common_component]
    simp [error_msgs, error_msgs_list, error_msgs_list_append,
      error_msgs_list_optText, error_msgs_list_error_show]
  · simp only [render_slider]
    rw [error_msgs_common_component]
    simp [error_msgs, error_msgs_list, error_msgs_list_append,
      error_msgs_list_optText, error_msgs_list_error_show]
  · simp only [render_date]
    rw [error_msgs_common_component]
    simp [error_msgs, error_msgs_list, error_msgs_list_append,
      error_msgs_list_optText, error_msgs_list_error_show]
  · simp only [render_checkbox]
    rw [error_msgs_common_component]
    simp [error_msgs, error_msgs_list, View.textOf]
  · cases vs <;> simp [ValidationState.msg_list]
  · intro m
    cases vs <;> simp [ValidationState.msg_list]

/-- Searching a one-element list for a label is searching its element. -/
lemma first_label_list_singleton (v : View) :
    first_label_list [v] = first_label v := by
  cases h : first_label v <;> simp [first_label_list, h]

/-- The styled wrapper div introduces no label of its own. -/
lemma first_label_common_component (styles : List FbStyleAttr) (pc : String)
    (inner : View) :
    first_label (common_component styles pc inner) = first_label inner := by
  simp [common_component, first_label, first_label_list_singleton]

/-- Claim C6 counterexample: a checkbox with no label set still renders
label text — the style falls back to rendering the control's name
(`src/styles/flowbite.rs` lines 483-487). -/
theorem C6_checkbox_without_label_renders_name :
    label_texts
      (render_checkbox { data := { name := "agree", label := none }, styles := [] } false)
      = ["agree"] := by
  rfl

/-- Claim C6 (amended): text input, text area, select, radio group,
stepper, slider and date render the control's label text exactly when
the label field is present; the checkbox instead falls back to rendering
the control's name as label text when no label is set. -/
theorem C6_label_rendered_iff_present_except_checkbox
    (ti : ControlRenderData TextInputData) (ta : ControlRenderData TextAreaData)
    (se : ControlRenderData SelectData) (ra : ControlRenderData RadioButtonsData)
    (sp : ControlRenderData StepperData) (sl : ControlRenderData SliderData)
    (da : ControlRenderData DateData) (cb : ControlRenderData CheckboxData)
    (env : Nat → String) (gv : String) (gb : Bool) (vs : ValidationState) :
    label_texts (render_text_input ti gv vs) = ti.data.label.toList ∧
    label_texts (render_text_area ta gv vs) = ta.data.label.toList ∧
    label_texts (render_select se gv vs) = se.data.label.toList ∧
    label_texts (render_radio_buttons ra gv vs) = ra.data.label.toList ∧
    label_texts (render_stepper sp gv vs) = sp.data.label.toList ∧
    label_texts (render_slider sl gv vs) = sl.data.label.toList ∧
    label_texts (render_date da env gv vs) = da.data.label.toList ∧
    label_texts (render_checkbox cb gb) = [cb.data.label.getD cb.data.name] := by
  refine ⟨?_, ?_, ?_, ?_, ?_, ?_, ?_, ?_⟩
  · simp only [render_text_input]
    rw [label_texts, first_label_common_component]
    cases h : ti.data.label <;>
      simp [first_label, first_label_list, optText, View.textOf, h]
  · simp only [render_text_area]
    rw [label_texts, first_label_common_component]
    cases h : ta.data.label <;>
      simp [first_label, first_label_list, optText, View.textOf, h]
  · simp only [render_select]
    rw [label_texts, first_label_common_component]
    cases h : se.data.label <;>
      simp [first_label, first_label_list, optText, View.textOf, h]
  · simp only [render_radio_buttons]
    rw [label_texts, first_label_common_component]
    cases h : ra.data.label <;>
      simp [first_label, first_label_list, optText, View.textOf, h]
  · simp only [render_stepper]
    rw [label_texts, first_label_common_component]
    cases h : sp.data.label <;>
      simp [first_label, first_label_list, optText, View.textOf, h]
  · simp only [render_slider]
    rw [label_texts, first_label_common_component]
    cases h : sl.data.label <;>
      simp [first_label, first_label_list, optText, View.textOf, h]
  · simp only [render_date]
    rw [label_texts, first_label_common_component]
    cases h : da.data.label <;>
      simp [first_label, first_label_list, optText, View.textOf, h]
  · simp only [render_checkbox]
    rw [label_texts, first_label_common_component]
    simp [first_label, first_label_list, View.textOf]

end LeptosFormTool
